import Mathlib

/-!
Shallow embedding of `src/components/timeline.ts` (frigate-hass-card):
the timeline event coverage cache (`TimelineEventManager`), the thumbnail
projection, the window-placement logic and the widget event handlers of
`FrigateCardTimelineCore`.

Timestamps are modelled as integers in milliseconds (JavaScript `Date`
values compare by their millisecond value); Frigate event times are in
seconds and are multiplied by 1000 exactly where the source does so.
JavaScript truthiness of an optional number (`if (event.end_time)`) is
`some t` with `t ≠ 0`; truthiness of an optional object is `isSome`.
-/

/-- Frigate event descriptor (`FrigateEvent` from `types.ts`); only the
fields read by `timeline.ts` are modelled: `id`, `label`, `start_time`
(seconds), and the optional `end_time` (seconds). -/
structure FrigateEvent where
  id : String
  label : String
  start_time : Int
  end_time : Option Int
deriving DecidableEq

/-- One node of the media-browse tree as consumed by `timeline.ts`
(`FrigateBrowseMediaSource` from `types.ts`): the child-level node whose
`media_content_type`, `frigate.event` and identity fields are read.  The
optional `frigate` wrapper of the source is collapsed to the event it
carries, which is the only field of it the code reads. -/
structure FrigateBrowseMediaSource where
  title : String
  media_class : String
  media_content_type : String
  media_content_id : String
  can_play : Bool
  can_expand : Bool
  thumbnail : Option String
  frigate : Option FrigateEvent
deriving DecidableEq

/-- A browse-media container node: the playlist object built by
`_generateThumbnails` (and the shape of `_thumbnails`).  Its `children`
field is optional, as in the TypeScript type. -/
structure FrigateBrowseMediaContainer where
  title : String
  media_class : String
  media_content_type : String
  media_content_id : String
  can_play : Bool
  can_expand : Bool
  children_media_class : String
  thumbnail : Option String
  children : Option (List FrigateBrowseMediaSource)
deriving DecidableEq

/-- A timeline dataset record (`FrigateCardTimelineItem`): one per event
identifier, carrying the event, render `start`/`end` (milliseconds), the
camera group, display strings, and the optional resolved clip/snapshot. -/
structure FrigateCardTimelineItem where
  id : String
  group : String
  content : String
  title : String
  start : Int
  «end» : Option Int
  type : Option String
  event : FrigateEvent
  clip : Option FrigateBrowseMediaSource
  snapshot : Option FrigateBrowseMediaSource
deriving DecidableEq

/-- A timeline window (`TimelineWindow`), start/end in milliseconds. -/
structure TimelineWindow where
  start : Int
  «end» : Int
deriving DecidableEq

/-- The `media` configuration value (`TimelineMediaType`). -/
inductive TimelineMediaType where
  | all
  | clips
  | snapshots
deriving DecidableEq

/-- JavaScript truthiness of an optional numeric field such as
`event.end_time`: present and non-zero. -/
def truthyTime : Option Int → Bool
  | some t => t != 0
  | none => false

/-- State of a `TimelineEventManager`: the dataset plus the coverage
window (`_dateStart`, `_dateEnd`, `_dateFetch`, all milliseconds) and
`_maxAgeSeconds` (defaults to `TIMELINE_EVENT_MANAGER_MAX_AGE_SECONDS`,
which is 10). -/
structure TimelineEventManagerState where
  dataset : List FrigateCardTimelineItem
  dateStart : Option Int
  dateEnd : Option Int
  dateFetch : Option Int
  maxAgeSeconds : Int
deriving DecidableEq

namespace TimelineEventManager

/-- The dataset lookup `this._dataset.get(id)`: the record with the given
identifier, if any. -/
def dsGet (ds : List FrigateCardTimelineItem) (id : String) :
    Option FrigateCardTimelineItem :=
  ds.find? (fun x => x.id == id)

/-- The merge performed by the vis-data `DataSet.update` for an existing
identifier: properties present on the update override the stored record,
properties absent on the update are preserved.  The mandatory fields are
always present on an update record; the optional ones fall back to the
stored record when the update omits them. -/
def mergeTimelineItem (old upd : FrigateCardTimelineItem) :
    FrigateCardTimelineItem :=
  { id := upd.id
    group := upd.group
    content := upd.content
    title := upd.title
    start := upd.start
    «end» := upd.«end» <|> old.«end»
    type := upd.type <|> old.type
    event := upd.event
    clip := upd.clip <|> old.clip
    snapshot := upd.snapshot <|> old.snapshot }

/-- One step of `DataSet.update`: upsert a single record by identifier
(merge into an existing record, else append). -/
def dsUpdateOne (ds : List FrigateCardTimelineItem)
    (upd : FrigateCardTimelineItem) : List FrigateCardTimelineItem :=
  if ds.any (fun x => x.id == upd.id) then
    ds.map (fun x => if x.id == upd.id then mergeTimelineItem x upd else x)
  else
    ds ++ [upd]

/-- `this._dataset.update(items)`: upsert each record in order. -/
def dsUpdate (ds : List FrigateCardTimelineItem)
    (upds : List FrigateCardTimelineItem) : List FrigateCardTimelineItem :=
  upds.foldl dsUpdateOne ds

/-- The body of the `forEach` in `_addMediaSource`: map one child of the
fetched media tree to a timeline record (none when the child has no event
or is not video/image).  `ds` is the dataset as it stood at the start of
the call: the dataset itself is only updated after the loop. -/
def buildTimelineItem (contentCallback tooltipCallback :
      Option (FrigateBrowseMediaSource → String))
    (camera : String) (ds : List FrigateCardTimelineItem)
    (child : FrigateBrowseMediaSource) : Option FrigateCardTimelineItem :=
  match child.frigate with
  | none => none
  | some event =>
    if child.media_content_type = "video" ∨ child.media_content_type = "image" then
      let item0 : FrigateCardTimelineItem :=
        match dsGet ds event.id with
        | some item => item
        | none =>
          { id := event.id
            group := camera
            content := (contentCallback.map (fun f => f child)).getD ""
            title := (tooltipCallback.map (fun f => f child)).getD ""
            start := event.start_time * 1000
            «end» := none
            type := none
            event := event
            clip := none
            snapshot := none }
      let item1 : FrigateCardTimelineItem :=
        if truthyTime event.end_time then
          { item0 with «end» := event.end_time.map (fun t => t * 1000),
                       type := some "range" }
        else
          { item0 with type := some "point" }
      let item2 : FrigateCardTimelineItem :=
        if child.media_content_type = "video" then
          { item1 with clip := some child }
        else if child.media_content_type = "image" then
          { item1 with snapshot := some child }
        else item1
      some item2
    else none

/-- `TimelineEventManager._addMediaSource`: build a record per qualifying
child of `target.children` (the only field of the target that is read)
and upsert them all into the dataset. -/
def addMediaSource (contentCallback tooltipCallback :
      Option (FrigateBrowseMediaSource → String))
    (camera : String)
    (targetChildren : Option (List FrigateBrowseMediaSource))
    (ds : List FrigateCardTimelineItem) : List FrigateCardTimelineItem :=
  dsUpdate ds
    ((targetChildren.getD []).filterMap
      (buildTimelineItem contentCallback tooltipCallback camera ds))

/-- `TimelineEventManager.clear`: clears the dataset (and nothing else). -/
def clear (s : TimelineEventManagerState) : TimelineEventManagerState :=
  { s with dataset := [] }

/-- `TimelineEventManager.hasCoverage(start, end?)`: decides whether the
range is already covered, as a function of the state, the wall clock
`now` and the queried range (milliseconds). -/
def hasCoverage (s : TimelineEventManagerState) (now : Int)
    (start : Int) (endOpt : Option Int) : Bool :=
  match s.dateFetch, s.dateStart, s.dateEnd with
  | some dateFetch, some dateStart, some dateEnd =>
    if s.maxAgeSeconds ≠ 0 ∧ now - dateFetch > s.maxAgeSeconds * 1000 then
      false
    else if start < dateStart then
      false
    else
      match endOpt with
      | none => true
      | some e =>
        if e < dateEnd then
          true
        else if s.maxAgeSeconds = 0 then
          false
        else if now - e > s.maxAgeSeconds * 1000 then
          false
        else
          decide (e - s.maxAgeSeconds * 1000 ≤ dateEnd)
  | _, _, _ => false

end TimelineEventManager

/-- The eight-step decision procedure exactly as the specification words
it, written for comparison with the source's `hasCoverage`: (1) never
fetched, (2) fetch staler than the threshold, (3) start before the
stored earliest, (4) open-ended query, (5) end strictly before the
stored latest, (6) no threshold configured, (7) end older than now minus
the threshold, (8) covered iff end minus the threshold is at or before
the stored latest. -/
def hasCoverageSpec8 (s : TimelineEventManagerState) (now : Int)
    (start : Int) (endOpt : Option Int) : Bool :=
  if s.dateFetch = none ∨ s.dateStart = none ∨ s.dateEnd = none then
    false
  else if s.maxAgeSeconds ≠ 0 ∧
      now - s.dateFetch.getD 0 > s.maxAgeSeconds * 1000 then
    false
  else if start < s.dateStart.getD 0 then
    false
  else
    match endOpt with
    | none => true
    | some e =>
      if e < s.dateEnd.getD 0 then true
      else if s.maxAgeSeconds = 0 then false
      else if now - e > s.maxAgeSeconds * 1000 then false
      else decide (e - s.maxAgeSeconds * 1000 ≤ s.dateEnd.getD 0)

namespace TimelineEventManager

/-- The first guard of `_fetchEvents`: widen the stored earliest date.
When nothing is stored yet the (possibly absent) requested start is
taken as-is; otherwise the start replaces the stored value only when it
is present and strictly earlier. -/
def widenStart (cur : Option Int) (start : Option Int) : Option Int :=
  match cur with
  | none => start
  | some c =>
    match start with
    | some v => if v < c then some v else some c
    | none => some c

/-- The second guard of `_fetchEvents`: widen the stored latest date
symmetrically (replace only when present and strictly later). -/
def widenEnd (cur : Option Int) (endOpt : Option Int) : Option Int :=
  match cur with
  | none => endOpt
  | some c =>
    match endOpt with
    | some v => if v > c then some v else some c
    | none => some c

/-- Outcome of one `fetchCameraEvents(camera, mediaType)` call:
`skipped` when a guard returned early (missing camera config or missing
base query parameters), `failed` when `browseMediaQuery` rejected (the
rejection is caught and its message reported), `fetched` with the
children of the returned media tree otherwise. -/
inductive FetchOutcome where
  | skipped
  | failed (message : String)
  | fetched (targetChildren : Option (List FrigateBrowseMediaSource))
deriving DecidableEq

/-- Settling of all the per-camera/per-media-kind fetches of one
`_fetchEvents` call (`Promise.all`): every successful fetch is merged
into the dataset via `_addMediaSource`, every caught failure contributes
one outbound error signal (`dispatchErrorMessageEvent`), and the whole
call returns normally regardless of individual failures.  Returns the
final dataset and the list of emitted error messages. -/
def processFetchResults (contentCallback tooltipCallback :
      Option (FrigateBrowseMediaSource → String)) :
    List FrigateCardTimelineItem → List (String × FetchOutcome) →
    List FrigateCardTimelineItem × List String
  | ds, [] => (ds, [])
  | ds, r :: rs =>
    match r.2 with
    | FetchOutcome.skipped =>
      processFetchResults contentCallback tooltipCallback ds rs
    | FetchOutcome.failed m =>
      let rest := processFetchResults contentCallback tooltipCallback ds rs
      (rest.1, m :: rest.2)
    | FetchOutcome.fetched ch =>
      processFetchResults contentCallback tooltipCallback
        (addMediaSource contentCallback tooltipCallback r.1 ch ds) rs

/-- State effect of `TimelineEventManager._fetchEvents`: widen the
coverage window, abort (keeping the widened bounds) if either bound is
still unknown, otherwise stamp `_dateFetch := now` before the network
calls and merge every settled fetch result.  `results` carries one
outcome per (camera, media-kind) pair in settlement order. -/
def fetchEventsState (contentCallback tooltipCallback :
      Option (FrigateBrowseMediaSource → String))
    (s : TimelineEventManagerState) (now : Int)
    (start endOpt : Option Int) (results : List (String × FetchOutcome)) :
    TimelineEventManagerState × List String :=
  let ds' := widenStart s.dateStart start
  let de' := widenEnd s.dateEnd endOpt
  if ds' = none ∨ de' = none then
    ({ s with dateStart := ds', dateEnd := de' }, [])
  else
    let merged := processFetchResults contentCallback tooltipCallback
      s.dataset results
    ({ s with dateStart := ds', dateEnd := de', dateFetch := some now,
              dataset := merged.1 }, merged.2)

end TimelineEventManager

/-- The camera-change branch of `FrigateCardTimelineCore.updated`: when
the changed-property set contains `cameras` the event manager is
cleared (the widget is also torn down, which is outside the cache
state); otherwise the cache state is untouched. -/
def updatedCameraReset (changedProps : List String)
    (s : TimelineEventManagerState) : TimelineEventManagerState :=
  if changedProps.contains "cameras" then TimelineEventManager.clear s else s

/-- `FrigateCardTimelineCore._getStartEndFromEvent`: pad the event start
back one hour; the end is the event end plus one hour when the event has
a (truthy) end, else the padded start plus one hour.  Result in
milliseconds. -/
def getStartEndFromEvent (event : FrigateEvent) : Int × Int :=
  let start := event.start_time * 1000 - 3600000
  let e : Int :=
    if truthyTime event.end_time then event.end_time.getD 0 * 1000 + 3600000
    else start + 3600000
  (start, e)

/-- `FrigateCardTimelineCore._getStartEnd`: the window around the view
target's event when one exists, else the last hour ending now. -/
def getStartEnd (targetEvent : Option FrigateEvent) (now : Int) : Int × Int :=
  match targetEvent with
  | some event => getStartEndFromEvent event
  | none => (now - 3600000, now)

/-- The raw-timestamp visibility test of `_updateTimelineFromView`: the
focused event's start (and its end, when truthy) against the widget's
currently displayed window. -/
def eventOutsideWindow (event : FrigateEvent) (tw : TimelineWindow) : Bool :=
  let eventStart : Int := event.start_time * 1000
  let eventEnd : Option Int :=
    if truthyTime event.end_time then event.end_time.map (fun t => t * 1000)
    else none
  decide (eventStart < tw.start) || decide (eventStart > tw.«end») ||
    (match eventEnd with
     | some ee => decide (ee < tw.start) || decide (ee > tw.«end»)
     | none => false)

/-- The window-placement decision at the tail of
`_updateTimelineFromView`: context window first (applied only when it
deep-differs from the widget's current window), else the padded event
window when the focused event's raw timestamps fall outside the current
window, else (no focused event) the computed default window,
unconditionally.  Returns the window passed to `setWindow`, or none when
the widget window is left alone. -/
def decideWindowAction (contextWindow : Option TimelineWindow)
    (mediaEvent : Option FrigateEvent) (tw : TimelineWindow)
    (windowStart windowEnd : Int) : Option TimelineWindow :=
  match contextWindow with
  | some cw => if cw ≠ tw then some cw else none
  | none =>
    match mediaEvent with
    | some event =>
      if eventOutsideWindow event tw then some ⟨windowStart, windowEnd⟩
      else none
    | none => some ⟨windowStart, windowEnd⟩

/-- Window placement of `_updateTimelineFromView` end to end: the
candidate window is computed from the view's media event when present,
else from `_getStartEnd` (which itself falls back to the view target's
event); placement then follows `decideWindowAction`. -/
def updateTimelineWindowAction (contextWindow : Option TimelineWindow)
    (mediaEvent targetEvent : Option FrigateEvent) (tw : TimelineWindow)
    (now : Int) : Option TimelineWindow :=
  let w : Int × Int :=
    match mediaEvent with
    | some e => getStartEndFromEvent e
    | none => getStartEnd targetEvent now
  decideWindowAction contextWindow mediaEvent tw w.1 w.2

/-- The `clusterCriteria` closure of `_getOptions`: two items may share a
cluster only when both have truthy identifiers, neither identifier is
the focused media event's identifier, and their event labels are equal.
`focusedId` is `this.view?.media?.frigate?.event?.id`. -/
def clusterCriteria (focusedId : Option String)
    (first second : FrigateCardTimelineItem) : Bool :=
  decide (first.id ≠ "") && decide (some first.id ≠ focusedId) &&
  decide (second.id ≠ "") && decide (some second.id ≠ focusedId) &&
  decide (first.event.label = second.event.label)

/-- Modelled from the spec: the playlist media-class constant
`MEDIA_CLASS_PLAYLIST` imported from `types.ts`, which is not in the
provided sources.  Its concrete value is irrelevant to every claim. -/
def MEDIA_CLASS_PLAYLIST : String := "playlist"

/-- Modelled from the spec: the playlist media-type constant
`MEDIA_TYPE_PLAYLIST` imported from `types.ts`, which is not in the
provided sources.  Its concrete value is irrelevant to every claim. -/
def MEDIA_TYPE_PLAYLIST : String := "playlist"

/-- Stable ordering of the dataset by the `start` field, as requested by
`this._events.dataset.get({order: 'start'})`. -/
def insertByStart (x : FrigateCardTimelineItem) :
    List FrigateCardTimelineItem → List FrigateCardTimelineItem
  | [] => [x]
  | y :: ys => if x.start < y.start then x :: y :: ys else y :: insertByStart x ys

/-- Sort the dataset by item start (stable insertion sort). -/
def sortByStart : List FrigateCardTimelineItem → List FrigateCardTimelineItem
  | [] => []
  | x :: xs => insertByStart x (sortByStart xs)

/-- The per-item branch of `_generateThumbnails`: the item's clip when
clips are wanted and it is a true media entry, else its snapshot under
the equivalent condition, else nothing.  `isTrueMedia` abstracts
`BrowseMediaUtil.isTrueMedia`, whose implementation is outside this
file's sources; every theorem quantifies over it. -/
def pickChild (isTrueMedia : FrigateBrowseMediaSource → Bool)
    (media : TimelineMediaType) (item : FrigateCardTimelineItem) :
    Option FrigateBrowseMediaSource :=
  if (match item.clip with
      | some c =>
        (media == TimelineMediaType.all || media == TimelineMediaType.clips) &&
          isTrueMedia c
      | none => false) then
    item.clip
  else if (match item.snapshot with
      | some sn =>
        (media == TimelineMediaType.all || media == TimelineMediaType.snapshots) &&
          isTrueMedia sn
      | none => false) then
    item.snapshot
  else none

/-- The accumulation loop of `_generateThumbnails`: walk the dataset in
start order collecting the chosen children, tracking (as `childIndex`)
the position of the last added child whose event identifier is in the
widget's current selection; `media` is the timeline configuration's
media filter, absent when `this.timelineConfig` is unset (in which case
the loop adds nothing). -/
def generateThumbnailsAux (isTrueMedia : FrigateBrowseMediaSource → Bool)
    (media : Option TimelineMediaType) (selected : List String)
    (sorted : List FrigateCardTimelineItem) :
    List FrigateBrowseMediaSource × Int :=
  sorted.foldl
    (fun acc item =>
      match media with
      | none => acc
      | some m =>
        match pickChild isTrueMedia m item with
        | some c =>
          let children := acc.1 ++ [c]
          (children,
           if selected.contains item.event.id then (children.length : Int) - 1
           else acc.2)
        | none => acc)
    ([], -1)

/-- The playlist container literal built by `_generateThumbnails`. -/
def mkThumbnailTarget (children : List FrigateBrowseMediaSource) :
    FrigateBrowseMediaContainer :=
  { title := "Timeline events"
    media_class := MEDIA_CLASS_PLAYLIST
    media_content_type := MEDIA_TYPE_PLAYLIST
    media_content_id := ""
    can_play := false
    can_expand := true
    children_media_class := MEDIA_CLASS_PLAYLIST
    thumbnail := none
    children := some children }

/-- `FrigateCardTimelineCore._generateThumbnails` as a state transformer:
returns the new `_thumbnails` value and the dispatched view change (the
adopted container and the focus index passed to `evolve`), `none` when
nothing is dispatched.  Early exits: widget absent; empty derived
children list; deep-equal (`isEqual`) container. -/
def generateThumbnails (isTrueMedia : FrigateBrowseMediaSource → Bool)
    (timelinePresent : Bool) (media : Option TimelineMediaType)
    (selected : List String) (ds : List FrigateCardTimelineItem)
    (prev : Option FrigateBrowseMediaContainer) :
    Option FrigateBrowseMediaContainer ×
      Option (FrigateBrowseMediaContainer × Option Int) :=
  if timelinePresent = false then (prev, none)
  else
    let acc := generateThumbnailsAux isTrueMedia media selected (sortByStart ds)
    if acc.1.isEmpty then (prev, none)
    else
      let target := mkThumbnailTarget acc.1
      if some target = prev then (prev, none)
      else (some target, some (target, if acc.2 < 0 then none else some acc.2))

/-- Synchronous effects of `_timelineRangeHandler`, in program order. -/
inductive RangeEffect where
  | fetchIfNecessary (windowStart windowEnd : Int)
  | viewContextDispatch (window : TimelineWindow)
deriving DecidableEq

/-- `FrigateCardTimelineCore._timelineRangeHandler` as its synchronous
effect trace: nothing at all when the change is not user-initiated;
otherwise, when `hass`, `cameras`, the widget and the configuration are
all present, the coverage-ensuring fetch is initiated and — when the
view is present — the current widget window is persisted into the view
context and dispatched, in that order and without awaiting the fetch
(the fetch's continuation only regenerates thumbnails; it performs no
context dispatch). -/
def timelineRangeHandler (byUser hassPresent camerasPresent timelinePresent
      configPresent viewPresent : Bool) (start endMs : Int)
    (timelineWindow : TimelineWindow) : List RangeEffect :=
  if byUser = false then []
  else if hassPresent && camerasPresent && timelinePresent && configPresent then
    RangeEffect.fetchIfNecessary start endMs ::
      (if viewPresent then [RangeEffect.viewContextDispatch timelineWindow]
       else [])
  else []

/-- Effects of `_timelineSelectHandler`. -/
inductive SelectEffect where
  | viewDispatch (target : FrigateBrowseMediaContainer) (childIndex : Option Int)
  | thumbnailsOpen
  | thumbnailsClose
deriving DecidableEq

/-- JavaScript `Array.prototype.findIndex`: index of the first match, or
-1. -/
def findIndexJS (p : α → Bool) (l : List α) : Int :=
  match l.findIdx? p with
  | some i => (i : Int)
  | none => -1

/-- `FrigateCardTimelineCore._timelineSelectHandler` as its effect trace:
a silent no-op when `_thumbnails` is unset or carries no `children`
field; otherwise the view is evolved with the thumbnails and the mapped
child index (when the view is present) and a thumbnails open/close
signal is emitted depending on whether a non-negative index was found. -/
def timelineSelectHandler (thumbnails : Option FrigateBrowseMediaContainer)
    (viewPresent : Bool) (items : List String) : List SelectEffect :=
  match thumbnails with
  | none => []
  | some th =>
    match th.children with
    | none => []
    | some children =>
      let childIndex : Option Int :=
        if items.length != 0 then
          some (findIndexJS
            (fun c =>
              match c.frigate with
              | some ev => ev.id == items.headD ""
              | none => false)
            children)
        else none
      (if viewPresent then [SelectEffect.viewDispatch th childIndex] else []) ++
        (match childIndex with
         | some i => if i ≥ 0 then [SelectEffect.thumbnailsOpen]
                     else [SelectEffect.thumbnailsClose]
         | none => [SelectEffect.thumbnailsClose])

/-! Concrete values used by scenario conjuncts, witnesses and
counterexamples.  The coverage scenario takes 10:00:00 of the scenario
day as millisecond 0: the fetch window `[10:00, 11:00]` is
`[0, 3600000]`, the fetch happened at `10:00:05` = 5000, the coverage
checks happen at `10:00:12` = 12000 and `10:00:20` = 20000 for the range
`[10:15, 10:45]` = `[900000, 2700000]`. -/

/-- Coverage cache state after fetching `[10:00, 11:00]` at `10:00:05`
with the default 10-second staleness threshold. -/
def c1State : TimelineEventManagerState :=
  { dataset := []
    dateStart := some 0
    dateEnd := some 3600000
    dateFetch := some 5000
    maxAgeSeconds := 10 }

/-- Claim C1: `hasCoverage` is exactly the eight-step decision procedure
of the specification, and on the concrete scenario (window
`[10:00, 11:00]` fetched at `10:00:05`, threshold 10 s) a check at
`10:00:12` for `[10:15, 10:45]` returns true while the same check at
`10:00:20` returns false. -/
theorem C1_hasCoverage_eight_steps :
    (∀ (s : TimelineEventManagerState) (now start : Int)
        (endOpt : Option Int),
      TimelineEventManager.hasCoverage s now start endOpt =
        hasCoverageSpec8 s now start endOpt)
    ∧ TimelineEventManager.hasCoverage c1State 12000 900000 (some 2700000) = true
    ∧ TimelineEventManager.hasCoverage c1State 20000 900000 (some 2700000) = false := by
  refine ⟨?_, by decide, by decide⟩
  intro s now start endOpt
  rcases s with ⟨ds, dst, den, dft, mas⟩
  cases dft <;> cases dst <;> cases den <;>
    simp [TimelineEventManager.hasCoverage, hasCoverageSpec8]

/-- A concrete range event used by merge scenarios. -/
def e2 : FrigateEvent :=
  { id := "e2", label := "car", start_time := 50, end_time := some 80 }

/-- A snapshot browse-media child carrying event `e2`. -/
def imageChildE2 : FrigateBrowseMediaSource :=
  { title := "image e2"
    media_class := "image"
    media_content_type := "image"
    media_content_id := "media/e2/image"
    can_play := false
    can_expand := false
    thumbnail := some "data:thumb-e2-image"
    frigate := some e2 }

/-- A clip browse-media child carrying the same event `e2`. -/
def videoChildE2 : FrigateBrowseMediaSource :=
  { title := "video e2"
    media_class := "video"
    media_content_type := "video"
    media_content_id := "media/e2/video"
    can_play := true
    can_expand := false
    thumbnail := some "data:thumb-e2-video"
    frigate := some e2 }

/-- The single record expected after merging the snapshot and then the
clip for event `e2`, carrying both media references. -/
def itemE2Both : FrigateCardTimelineItem :=
  { id := "e2"
    group := "cam1"
    content := ""
    title := ""
    start := 50000
    «end» := some 80000
    type := some "range"
    event := e2
    clip := some videoChildE2
    snapshot := some imageChildE2 }

namespace TimelineEventManager

theorem dsUpdateOne_map_id (ds : List FrigateCardTimelineItem)
    (u : FrigateCardTimelineItem) :
    (dsUpdateOne ds u).map (fun x => x.id) =
      if ds.any (fun x => x.id == u.id) then ds.map (fun x => x.id)
      else ds.map (fun x => x.id) ++ [u.id] := by
  unfold dsUpdateOne
  split
  · rw [List.map_map]
    apply List.map_congr_left
    intro a _
    by_cases hb : a.id = u.id
    · simp [hb, mergeTimelineItem]
    · simp [hb]
  · simp

theorem dsUpdateOne_nodup {ds : List FrigateCardTimelineItem}
    (u : FrigateCardTimelineItem)
    (h : (ds.map (fun x => x.id)).Nodup) :
    ((dsUpdateOne ds u).map (fun x => x.id)).Nodup := by
  rw [dsUpdateOne_map_id]
  split
  · exact h
  · rename_i hany
    rw [List.nodup_append]
    refine ⟨h, List.nodup_singleton _, ?_⟩
    intro a ha hmem
    rcases List.mem_map.mp ha with ⟨x, hx, hxe⟩
    rcases List.mem_singleton.mp hmem with rfl
    have hc : ds.any (fun x => x.id == u.id) = true := by
      rw [List.any_eq_true]
      exact ⟨x, hx, by simp [hxe]⟩
    exact hany hc

theorem dsUpdate_nodup (upds : List FrigateCardTimelineItem) :
    ∀ ds : List FrigateCardTimelineItem,
      (ds.map (fun x => x.id)).Nodup →
      ((dsUpdate ds upds).map (fun x => x.id)).Nodup := by
  induction upds with
  | nil => intro ds h; exact h
  | cons u us ih =>
    intro ds h
    exact ih (dsUpdateOne ds u) (dsUpdateOne_nodup u h)

theorem addMediaSource_nodup
    (contentCallback tooltipCallback : Option (FrigateBrowseMediaSource → String))
    (camera : String)
    (targetChildren : Option (List FrigateBrowseMediaSource))
    {ds : List FrigateCardTimelineItem}
    (h : (ds.map (fun x => x.id)).Nodup) :
    ((addMediaSource contentCallback tooltipCallback camera targetChildren
        ds).map (fun x => x.id)).Nodup :=
  dsUpdate_nodup _ ds h

theorem foldl_addMediaSource_nodup
    (contentCallback tooltipCallback : Option (FrigateBrowseMediaSource → String))
    (ops : List (String × Option (List FrigateBrowseMediaSource))) :
    ∀ ds : List FrigateCardTimelineItem,
      (ds.map (fun x => x.id)).Nodup →
      ((ops.foldl
          (fun d op =>
            addMediaSource contentCallback tooltipCallback op.1 op.2 d)
          ds).map (fun x => x.id)).Nodup := by
  induction ops with
  | nil => intro ds h; exact h
  | cons op ops ih =>
    intro ds h
    exact ih _ (addMediaSource_nodup _ _ _ _ h)

end TimelineEventManager

/-- Claim C2: every sequence of merges keeps at most one record per
event identifier; merging a clip for an event that already has only a
snapshot yields one record carrying both; merging the same event twice
never produces two records. -/
theorem C2_merge_unique_and_preserving :
    (∀ (contentCallback tooltipCallback :
          Option (FrigateBrowseMediaSource → String))
        (ops : List (String × Option (List FrigateBrowseMediaSource))),
      ((ops.foldl
          (fun d op =>
            TimelineEventManager.addMediaSource contentCallback
              tooltipCallback op.1 op.2 d)
          []).map (fun x => x.id)).Nodup)
    ∧ TimelineEventManager.addMediaSource none none "cam1"
        (some [videoChildE2])
        (TimelineEventManager.addMediaSource none none "cam1"
          (some [imageChildE2]) []) = [itemE2Both]
    ∧ (TimelineEventManager.addMediaSource none none "cam1"
        (some [videoChildE2])
        (TimelineEventManager.addMediaSource none none "cam1"
          (some [videoChildE2]) [])).length = 1 := by
  refine ⟨?_, by decide, by decide⟩
  intro contentCallback tooltipCallback ops
  exact TimelineEventManager.foldl_addMediaSource_nodup _ _ ops [] (by simp)

namespace TimelineEventManager

theorem dsUpdateOne_length (ds : List FrigateCardTimelineItem)
    (u : FrigateCardTimelineItem) :
    ds.length ≤ (dsUpdateOne ds u).length := by
  unfold dsUpdateOne
  split
  · simp
  · simp

theorem dsUpdate_length (upds : List FrigateCardTimelineItem) :
    ∀ ds : List FrigateCardTimelineItem,
      ds.length ≤ (dsUpdate ds upds).length := by
  induction upds with
  | nil => intro ds; exact le_refl _
  | cons u us ih =>
    intro ds
    exact le_trans (dsUpdateOne_length ds u) (ih (dsUpdateOne ds u))

theorem addMediaSource_length
    (contentCallback tooltipCallback : Option (FrigateBrowseMediaSource → String))
    (camera : String)
    (targetChildren : Option (List FrigateBrowseMediaSource))
    (ds : List FrigateCardTimelineItem) :
    ds.length ≤ (addMediaSource contentCallback tooltipCallback camera
        targetChildren ds).length :=
  dsUpdate_length _ ds

theorem processFetchResults_length
    (contentCallback tooltipCallback : Option (FrigateBrowseMediaSource → String))
    (results : List (String × FetchOutcome)) :
    ∀ ds : List FrigateCardTimelineItem,
      ds.length ≤
        (processFetchResults contentCallback tooltipCallback ds results).1.length := by
  induction results with
  | nil => intro ds; exact le_refl _
  | cons r rs ih =>
    intro ds
    rcases r with ⟨camera, outcome⟩
    cases outcome with
    | skipped => exact ih ds
    | failed m => exact ih ds
    | fetched ch =>
      exact le_trans (addMediaSource_length _ _ _ _ ds) (ih _)

theorem widenStart_some_isSome (v : Int) (x : Option Int) :
    (widenStart (some v) x).isSome = true := by
  unfold widenStart
  cases x with
  | none => rfl
  | some w => dsimp only; split <;> rfl

theorem widenEnd_some_isSome (v : Int) (x : Option Int) :
    (widenEnd (some v) x).isSome = true := by
  unfold widenEnd
  cases x with
  | none => rfl
  | some w => dsimp only; split <;> rfl

end TimelineEventManager

/-- A populated coverage cache state used by the camera-reset
counterexample. -/
def c3State : TimelineEventManagerState :=
  { dataset := [itemE2Both]
    dateStart := some 0
    dateEnd := some 3600000
    dateFetch := some 5000
    maxAgeSeconds := 10 }

/-- Counterexample to claim C3: on a camera-set change the dataset is
emptied, but none of the four Coverage Window fields is cleared — the
earliest date, latest date, last-fetch timestamp and staleness threshold
all keep their previous values, so "all four Coverage Window fields are
cleared" is false on the code. -/
theorem C3_counterexample :
    (updatedCameraReset ["cameras"] c3State).dataset = []
    ∧ (updatedCameraReset ["cameras"] c3State).dateStart = some 0
    ∧ (updatedCameraReset ["cameras"] c3State).dateEnd = some 3600000
    ∧ (updatedCameraReset ["cameras"] c3State).dateFetch = some 5000
    ∧ (updatedCameraReset ["cameras"] c3State).maxAgeSeconds = 10 :=
  ⟨rfl, rfl, rfl, rfl, rfl⟩

/-- Claim C3 as amended: a camera-set change empties the dataset and
leaves the four Coverage Window fields unchanged; the dataset is emptied
exactly when the changed-property set contains the cameras; and the only
other state-mutating operation, the fetch path, never shrinks the
dataset, never un-sets a stored coverage bound (widening a stored bound
always yields a stored bound), either leaves the last-fetch timestamp
alone or stamps it with now, and never changes the staleness
threshold. -/
theorem C3_camera_reset_amended :
    (∀ (changedProps : List String) (s : TimelineEventManagerState),
      (updatedCameraReset changedProps s).dataset =
        (if changedProps.contains "cameras" then [] else s.dataset)
      ∧ (updatedCameraReset changedProps s).dateStart = s.dateStart
      ∧ (updatedCameraReset changedProps s).dateEnd = s.dateEnd
      ∧ (updatedCameraReset changedProps s).dateFetch = s.dateFetch
      ∧ (updatedCameraReset changedProps s).maxAgeSeconds = s.maxAgeSeconds)
    ∧ (∀ s, (TimelineEventManager.clear s).dataset = [])
    ∧ (∀ (contentCallback tooltipCallback :
            Option (FrigateBrowseMediaSource → String))
        (s : TimelineEventManagerState) (now : Int)
        (start endOpt : Option Int)
        (results : List (String × TimelineEventManager.FetchOutcome)),
        s.dataset.length ≤
          (TimelineEventManager.fetchEventsState contentCallback
            tooltipCallback s now start endOpt results).1.dataset.length
        ∧ (TimelineEventManager.fetchEventsState contentCallback
            tooltipCallback s now start endOpt results).1.dateStart =
              TimelineEventManager.widenStart s.dateStart start
        ∧ (TimelineEventManager.fetchEventsState contentCallback
            tooltipCallback s now start endOpt results).1.dateEnd =
              TimelineEventManager.widenEnd s.dateEnd endOpt
        ∧ ((TimelineEventManager.fetchEventsState contentCallback
              tooltipCallback s now start endOpt results).1.dateFetch =
                s.dateFetch
            ∨ (TimelineEventManager.fetchEventsState contentCallback
                tooltipCallback s now start endOpt results).1.dateFetch =
                  some now)
        ∧ (TimelineEventManager.fetchEventsState contentCallback
            tooltipCallback s now start endOpt results).1.maxAgeSeconds =
              s.maxAgeSeconds)
    ∧ (∀ (v : Int) (x : Option Int),
        (TimelineEventManager.widenStart (some v) x).isSome = true)
    ∧ (∀ (v : Int) (x : Option Int),
        (TimelineEventManager.widenEnd (some v) x).isSome = true) := by
  refine ⟨?_, ?_, ?_, TimelineEventManager.widenStart_some_isSome,
    TimelineEventManager.widenEnd_some_isSome⟩
  · intro changedProps s
    unfold updatedCameraReset TimelineEventManager.clear
    split <;> simp
  · intro s; rfl
  · intro contentCallback tooltipCallback s now start endOpt results
    unfold TimelineEventManager.fetchEventsState
    dsimp only
    split
    · exact ⟨le_refl _, rfl, rfl, Or.inl rfl, rfl⟩
    · exact ⟨TimelineEventManager.processFetchResults_length _ _ results
          s.dataset, rfl, rfl, Or.inr rfl, rfl⟩

/-- Claim C4: widget window placement precedence.  A persisted context
window that deep-differs from the widget's current window is applied no
matter what event is focused; without a context window, a focused
event's raw-timestamp visibility alone decides whether the padded event
window is applied; with neither a context window nor any event (media or
target), the live default window `[now − 1h, now]` is applied
unconditionally. -/
theorem C4_window_precedence :
    ∀ (cw : TimelineWindow) (mediaEvent targetEvent : Option FrigateEvent)
      (tw : TimelineWindow) (now : Int),
      (cw ≠ tw →
        updateTimelineWindowAction (some cw) mediaEvent targetEvent tw now =
          some cw)
      ∧ (∀ e : FrigateEvent,
          updateTimelineWindowAction none (some e) targetEvent tw now =
            (if eventOutsideWindow e tw then
              some ⟨(getStartEndFromEvent e).1, (getStartEndFromEvent e).2⟩
            else none))
      ∧ (updateTimelineWindowAction none none none tw now =
          some ⟨now - 3600000, now⟩) := by
  intro cw mediaEvent targetEvent tw now
  refine ⟨?_, ?_, rfl⟩
  · intro h
    simp [updateTimelineWindowAction, decideWindowAction, h]
  · intro e
    cases h : eventOutsideWindow e tw <;>
      simp [updateTimelineWindowAction, decideWindowAction, h]

/-- Witness for C4: with a persisted context window `[0, 1000]` that
differs from the current widget window `[2000, 3000]`, the context
window is applied even though an event is simultaneously focused. -/
theorem C4_window_precedence_witness :
    updateTimelineWindowAction (some { start := 0, «end» := 1000 })
      (some e2) none { start := 2000, «end» := 3000 } 0 =
      some { start := 0, «end» := 1000 } :=
  (C4_window_precedence { start := 0, «end» := 1000 } (some e2) none
    { start := 2000, «end» := 3000 } 0).1 (by decide)

/-- A concrete event without an end time. -/
def eventNoEnd : FrigateEvent :=
  { id := "e", label := "person", start_time := 1000, end_time := none }

/-- Counterexample to claim C6: for a focused event without an end the
computed window spans exactly one hour (3600000 ms), strictly less than
the two hours (7200000 ms) the specification describes. -/
theorem C6_counterexample :
    (getStartEndFromEvent eventNoEnd).2 - (getStartEndFromEvent eventNoEnd).1 =
      3600000
    ∧ (getStartEndFromEvent eventNoEnd).2 - (getStartEndFromEvent eventNoEnd).1 <
      7200000 := by
  refine ⟨by decide, by decide⟩

/-- Claim C6 as amended: for a focused event with a truthy end the
window is `[eventStart − 1h, eventEnd + 1h]` (so for start `T`, end
`T + 300` it is `[T − 3600, T + 300 + 3600]` in seconds); for a focused
event without an end the window end is the padded start plus one hour,
giving a one-hour window ending at the event start; for a view with no
focused event the window is `[now − 1h, now]`. -/
theorem C6_window_amended :
    (∀ ev : FrigateEvent, truthyTime ev.end_time = true →
      getStartEndFromEvent ev =
        (ev.start_time * 1000 - 3600000, ev.end_time.getD 0 * 1000 + 3600000))
    ∧ (∀ ev : FrigateEvent, truthyTime ev.end_time = false →
      getStartEndFromEvent ev =
        (ev.start_time * 1000 - 3600000, ev.start_time * 1000 - 3600000 + 3600000)
      ∧ (getStartEndFromEvent ev).2 - (getStartEndFromEvent ev).1 = 3600000)
    ∧ (∀ now : Int, getStartEnd none now = (now - 3600000, now))
    ∧ (∀ (T : Int) (eid lab : String), T + 300 ≠ 0 →
      getStartEndFromEvent
        { id := eid, label := lab, start_time := T, end_time := some (T + 300) } =
        (T * 1000 - 3600000, (T + 300) * 1000 + 3600000)) := by
  refine ⟨?_, ?_, fun now => rfl, ?_⟩
  · intro ev h
    simp [getStartEndFromEvent, h]
  · intro ev h
    refine ⟨by simp [getStartEndFromEvent, h], ?_⟩
    simp [getStartEndFromEvent, h]
  · intro T eid lab h
    have ht : truthyTime (some (T + 300)) = true := by
      simp [truthyTime, bne_iff_ne]
      exact h
    simp [getStartEndFromEvent, ht]

/-- Witness for C6 as amended: the concrete scenario event with
`start_time = 100` and `end_time = 100 + 300` gets the padded window
`[100·1000 − 3600000, (100 + 300)·1000 + 3600000]`. -/
theorem C6_window_amended_witness :
    getStartEndFromEvent
      { id := "ew", label := "person", start_time := 100,
        end_time := some (100 + 300) } =
      (100 * 1000 - 3600000, (100 + 300) * 1000 + 3600000) :=
  C6_window_amended.2.2.2 100 "ew" "person" (by decide)

/-- An unclustered point item with identifier `x` and label `person`. -/
def itemX : FrigateCardTimelineItem :=
  { id := "x", group := "cam1", content := "", title := "", start := 0,
    «end» := none, type := some "point",
    event := { id := "x", label := "person", start_time := 0, end_time := none },
    clip := none, snapshot := none }

/-- An unclustered point item with identifier `y` and label `person`. -/
def itemY : FrigateCardTimelineItem :=
  { id := "y", group := "cam1", content := "", title := "", start := 5000,
    «end» := none, type := some "point",
    event := { id := "y", label := "person", start_time := 5, end_time := none },
    clip := none, snapshot := none }

/-- Claim C7: the clustering predicate answers "mergeable" only when
neither member's identifier is the focused event's identifier and the
labels are equal; a pair containing the focused identifier is never
mergeable (even with equal labels), and neither is a pair with
differing labels. -/
theorem C7_cluster_criteria :
    ∀ (focusedId : Option String) (first second : FrigateCardTimelineItem),
      (clusterCriteria focusedId first second = true →
        some first.id ≠ focusedId ∧ some second.id ≠ focusedId ∧
          first.event.label = second.event.label)
      ∧ ((focusedId = some first.id ∨ focusedId = some second.id) →
        clusterCriteria focusedId first second = false)
      ∧ (first.event.label ≠ second.event.label →
        clusterCriteria focusedId first second = false) := by
  intro f a b
  have hchar : clusterCriteria f a b = true →
      some a.id ≠ f ∧ some b.id ≠ f ∧ a.event.label = b.event.label := by
    intro h
    simp only [clusterCriteria, Bool.and_eq_true, decide_eq_true_eq] at h
    exact ⟨h.1.1.1.2, h.1.2, h.2⟩
  refine ⟨hchar, ?_, ?_⟩
  · intro hor
    cases hcc : clusterCriteria f a b with
    | false => rfl
    | true =>
      rcases hchar hcc with ⟨h1, h2, _⟩
      rcases hor with h | h
      · exact absurd h.symm h1
      · exact absurd h.symm h2
  · intro hlab
    cases hcc : clusterCriteria f a b with
    | false => rfl
    | true => exact absurd (hchar hcc).2.2 hlab

/-- Witness for C7: with `x` focused, the pair (`x`, `y`) is not
mergeable even though both labels are `person`. -/
theorem C7_cluster_criteria_witness :
    clusterCriteria (some "x") itemX itemY = false :=
  (C7_cluster_criteria (some "x") itemX itemY).2.1 (Or.inl rfl)

/-- The dataset record for event `e2` holding only a snapshot. -/
def itemSnapOnly : FrigateCardTimelineItem :=
  { id := "e2", group := "cam1", content := "", title := "", start := 50000,
    «end» := some 80000, type := some "range", event := e2,
    clip := none, snapshot := some imageChildE2 }

/-- A previously dispatched non-empty playlist. -/
def prevNonEmpty : FrigateBrowseMediaContainer :=
  mkThumbnailTarget [videoChildE2]

/-- Counterexample to claim C5: with a dataset holding one event that
has only a snapshot and the media filter `clips`, the projection's
derived children list is empty, so the function returns early — the
prior non-empty playlist stays current and nothing is dispatched.  No
empty-playlist dispatch ever happens, contradicting the claimed
"replaced with an empty-playlist dispatch exactly once". -/
theorem C5_counterexample :
    generateThumbnails (fun _ => true) true (some TimelineMediaType.clips) []
      [itemSnapOnly] (some prevNonEmpty) = (some prevNonEmpty, none) := by
  decide

/-- Claim C5 as amended: when the derived children list is non-empty the
new playlist is compared against the previous one with deep structural
equality and is adopted and dispatched exactly when they differ; when
the derived children list is empty the projection returns without
comparing, adopting or dispatching anything — in particular, for a
dataset containing one event with only a snapshot under media filter
`clips`, the prior non-empty playlist remains current and no dispatch
occurs. -/
theorem C5_thumbnails_amended :
    (∀ (isTrueMedia : FrigateBrowseMediaSource → Bool)
        (media : Option TimelineMediaType) (selected : List String)
        (ds : List FrigateCardTimelineItem)
        (prev : Option FrigateBrowseMediaContainer),
      ((generateThumbnails isTrueMedia true media selected ds prev).2.isSome =
        (!(generateThumbnailsAux isTrueMedia media selected
            (sortByStart ds)).1.isEmpty &&
         !(some (mkThumbnailTarget
            (generateThumbnailsAux isTrueMedia media selected
              (sortByStart ds)).1) = prev : Bool)))
      ∧ ((generateThumbnails isTrueMedia true media selected ds prev).1 =
          (match (generateThumbnails isTrueMedia true media selected ds prev).2 with
           | some p => some p.1
           | none => prev)))
    ∧ generateThumbnails (fun _ => true) true (some TimelineMediaType.clips) []
        [itemSnapOnly] (some prevNonEmpty) = (some prevNonEmpty, none) := by
  refine ⟨?_, by decide⟩
  intro isTrueMedia media selected ds prev
  by_cases h1 : (generateThumbnailsAux isTrueMedia media selected
      (sortByStart ds)).1.isEmpty = true
  · constructor
    · simp [generateThumbnails, h1]
    · simp [generateThumbnails, h1]
  · by_cases h2 : some (mkThumbnailTarget
        (generateThumbnailsAux isTrueMedia media selected (sortByStart ds)).1) =
        prev
    · constructor
      · simp [generateThumbnails, h1, h2]
      · simp [generateThumbnails, h1, h2]
    · constructor
      · simp [generateThumbnails, h1, h2]
      · simp [generateThumbnails, h1, h2]

/-- Claim C8: every caught per-camera/per-media-kind failure becomes
exactly one outbound error signal (in settlement order), no failure
aborts the sibling fetches — the final dataset is the merge of every
successful fetch regardless of interleaved failures or skips — and the
overall call returns a value for every possible combination of
outcomes. -/
theorem C8_fetch_failure_isolation :
    ∀ (contentCallback tooltipCallback :
        Option (FrigateBrowseMediaSource → String))
      (ds : List FrigateCardTimelineItem)
      (results : List (String × TimelineEventManager.FetchOutcome)),
      ((TimelineEventManager.processFetchResults contentCallback
          tooltipCallback ds results).2 =
        results.filterMap (fun r =>
          match r.2 with
          | TimelineEventManager.FetchOutcome.failed m => some m
          | _ => none))
      ∧ ((TimelineEventManager.processFetchResults contentCallback
          tooltipCallback ds results).1 =
        (results.filterMap (fun r =>
          match r.2 with
          | TimelineEventManager.FetchOutcome.fetched ch => some (r.1, ch)
          | _ => none)).foldl
          (fun d p =>
            TimelineEventManager.addMediaSource contentCallback
              tooltipCallback p.1 p.2 d) ds) := by
  intro contentCallback tooltipCallback ds results
  induction results generalizing ds with
  | nil => exact ⟨rfl, rfl⟩
  | cons r rs ih =>
    rcases r with ⟨camera, outcome⟩
    cases outcome with
    | skipped =>
      simpa [TimelineEventManager.processFetchResults, List.filterMap_cons]
        using ih ds
    | failed m =>
      have h := ih ds
      simp [TimelineEventManager.processFetchResults, List.filterMap_cons,
        h.1, h.2]
    | fetched ch =>
      simpa [TimelineEventManager.processFetchResults, List.filterMap_cons]
        using ih (TimelineEventManager.addMediaSource contentCallback
          tooltipCallback camera ch ds)

/-- Counterexample to claim C9: a user-initiated range change arriving
while `hass` is absent produces no effect at all — in particular the new
window is neither persisted into the view context nor dispatched, so
"if it is user-initiated, the new window is persisted and the view
holder is notified" is false on the code. -/
theorem C9_counterexample :
    timelineRangeHandler true false true true true true 0 1000
      { start := 0, «end» := 1000 } = [] := rfl

/-- Claim C9 as amended: a range change not flagged as user-initiated
does nothing at all (no coverage check, no fetch, no context write, no
dispatch); a user-initiated change with `hass`, the cameras, the widget
and the configuration present initiates the coverage fetch and — when
the view is present — synchronously persists and dispatches the widget's
current window, in program order and without awaiting the fetch; with
the view absent only the fetch is initiated, and with any other
precondition absent the handler is a silent no-op. -/
theorem C9_range_handler_amended :
    (∀ (hassPresent camerasPresent timelinePresent configPresent
        viewPresent : Bool) (start endMs : Int) (tw : TimelineWindow),
      timelineRangeHandler false hassPresent camerasPresent timelinePresent
        configPresent viewPresent start endMs tw = [])
    ∧ (∀ (start endMs : Int) (tw : TimelineWindow),
      timelineRangeHandler true true true true true true start endMs tw =
        [RangeEffect.fetchIfNecessary start endMs,
         RangeEffect.viewContextDispatch tw])
    ∧ (∀ (start endMs : Int) (tw : TimelineWindow),
      timelineRangeHandler true true true true true false start endMs tw =
        [RangeEffect.fetchIfNecessary start endMs])
    ∧ (∀ (hassPresent camerasPresent timelinePresent configPresent
        viewPresent : Bool) (start endMs : Int) (tw : TimelineWindow),
      (hassPresent && camerasPresent && timelinePresent && configPresent) =
        false →
      timelineRangeHandler true hassPresent camerasPresent timelinePresent
        configPresent viewPresent start endMs tw = []) := by
  refine ⟨fun _ _ _ _ _ _ _ _ => rfl, fun _ _ _ => rfl, fun _ _ _ => rfl, ?_⟩
  intro hassPresent camerasPresent timelinePresent configPresent viewPresent
    start endMs tw hfail
  simp [timelineRangeHandler, hfail]

/-- Witness for C9 as amended: a user-initiated range change with the
cameras absent (all other preconditions present) is a silent no-op. -/
theorem C9_range_handler_amended_witness :
    timelineRangeHandler true true false true true true 5 6
      { start := 5, «end» := 6 } = [] :=
  C9_range_handler_amended.2.2.2 true false true true true 5 6
    { start := 5, «end» := 6 } (by decide)

/-- Claim C10: a selection notification arriving while `_thumbnails` is
unset, or while the current playlist carries no children field, is a
silent no-op — no view evolve/dispatch and neither a thumbnails-open nor
a thumbnails-close signal. -/
theorem C10_select_noop :
    (∀ (viewPresent : Bool) (items : List String),
      timelineSelectHandler none viewPresent items = [])
    ∧ (∀ (title mc mct mci : String) (cp ce : Bool) (cmc : String)
        (thumb : Option String) (viewPresent : Bool) (items : List String),
      timelineSelectHandler
        (some { title := title, media_class := mc, media_content_type := mct,
                media_content_id := mci, can_play := cp, can_expand := ce,
                children_media_class := cmc, thumbnail := thumb,
                children := none }) viewPresent items = []) :=
  ⟨fun _ _ => rfl, fun _ _ _ _ _ _ _ _ _ _ => rfl⟩
